import Mathlib

/-!
Shallow embedding of the calculation cores of `complex_compounder_v3.py` and
`complex_compounder_v4.py` (Wealth-Calculator repository).

Python floats are modelled as exact rationals (`ℚ`); the spec disclaims any
precision guarantee beyond double precision, and the numeric claims carry an
explicit tolerance.  Python raises `ZeroDivisionError` on float division by
zero, so the unguarded division in v3 (line 121) is modelled with `Option`:
`none` is the crash.  Field/variable names follow the Python sources.
-/

namespace WealthCalc

/-- One projection outcome: the scenario list (rate paired with its value
series, in the order of the `rates` list), the `Total Contributions` baseline
column, and the `final_value` headline shown to the user. -/
structure ProjectionResult where
  scenarios : List (ℚ × List ℚ)
  baseline : List ℚ
  headline : ℚ

/-- The growth factor `(1 + r / compound_per_year) ** (compound_per_year * t)`
appearing in both versions (v3 line 120/121, v4 line 115/117). -/
def growth (r : ℚ) (compound_per_year t : ℕ) : ℚ :=
  (1 + r / compound_per_year) ^ (compound_per_year * t)

/-- `future_val = initial * (1 + r / compound_per_year) ** (compound_per_year * t)`
(v3 line 120, v4 line 115). -/
def future_val (initial r : ℚ) (compound_per_year t : ℕ) : ℚ :=
  initial * growth r compound_per_year t

/-- v4 lines 116–119: the contribution future value, guarded on `r > 0`; the
`else` branch is the linear (zero-rate) formula `monthly * t * compound_per_year`. -/
def contribution_val_v4 (monthly r : ℚ) (compound_per_year t : ℕ) : ℚ :=
  if 0 < r then monthly * ((growth r compound_per_year t - 1) / (r / compound_per_year))
  else monthly * ↑t * ↑compound_per_year

/-- v3 line 121: `monthly * (((1 + r/c) ** (c*t) - 1) / (r/c))` with no guard.
When the divisor `r / compound_per_year` is zero, Python float division raises
`ZeroDivisionError`; that crash is `none`. -/
def contribution_val_v3 (monthly r : ℚ) (compound_per_year t : ℕ) : Option ℚ :=
  if r / compound_per_year = 0 then none
  else some (monthly * ((growth r compound_per_year t - 1) / (r / compound_per_year)))

/-- v4 line 120: `total = future_val + contribution_val`. -/
def total_v4 (initial monthly r : ℚ) (compound_per_year t : ℕ) : ℚ :=
  future_val initial r compound_per_year t + contribution_val_v4 monthly r compound_per_year t

/-- v3 line 122: `total = future_val + contribution_val`, propagating the crash. -/
def total_v3 (initial monthly r : ℚ) (compound_per_year t : ℕ) : Option ℚ :=
  (contribution_val_v3 monthly r compound_per_year t).map
    (fun c => future_val initial r compound_per_year t + c)

/-- v3 lines 106–113 / v4 lines 102–109: the scenario rate list, one rate when
`range_offset == 0`, otherwise `[interest - range_offset, interest, interest + range_offset]`.
Identical in both versions (only labels/colors differ). -/
def rates (interest range_offset : ℚ) : List ℚ :=
  if range_offset = 0 then [interest]
  else [interest - range_offset, interest, interest + range_offset]

/-- v4 lines 113–121: the value series of one scenario, for `t` in `0..years`,
with `r = rate / 100` (line 112). -/
def values_v4 (initial monthly rate : ℚ) (compound_per_year years : ℕ) : List ℚ :=
  (List.range (years + 1)).map
    (fun t => total_v4 initial monthly (rate / 100) compound_per_year t)

/-- v3 lines 116–123: the value series of one scenario; the loop aborts with
`ZeroDivisionError` (hence `none`) when the per-period rate is zero. -/
def values_v3 (initial monthly rate : ℚ) (compound_per_year years : ℕ) : Option (List ℚ) :=
  (List.range (years + 1)).mapM
    (fun t => total_v3 initial monthly (rate / 100) compound_per_year t)

/-- v3 line 129 / v4 line 125: the `Total Contributions` baseline column,
`initial + monthly * t * compound_per_year` for `t` in `0..years`. -/
def total_contributions (initial monthly : ℚ) (compound_per_year years : ℕ) : List ℚ :=
  (List.range (years + 1)).map (fun t => initial + monthly * ↑t * ↑compound_per_year)

/-- The whole v4 calculation (lines 98–127): scenario series for every rate,
baseline column, and `final_value = df[labels[len(labels)//2]].iloc[-1]` —
the last entry of the middle scenario's series. -/
def project_v4 (initial monthly : ℚ) (years : ℕ) (interest range_offset : ℚ)
    (compound_per_year : ℕ) : ProjectionResult :=
  let scens := (rates interest range_offset).map
    (fun rate => (rate, values_v4 initial monthly rate compound_per_year years))
  { scenarios := scens
    baseline := total_contributions initial monthly compound_per_year years
    headline := (scens.getD (scens.length / 2) (0, [])).2.getLastD 0 }

/-- The whole v3 calculation (lines 102–131): as `project_v4` but any
`ZeroDivisionError` in a scenario loop aborts the whole computation (`none`). -/
def project_v3 (initial monthly : ℚ) (years : ℕ) (interest range_offset : ℚ)
    (compound_per_year : ℕ) : Option ProjectionResult :=
  ((rates interest range_offset).mapM
    (fun rate => (values_v3 initial monthly rate compound_per_year years).map
      (fun vs => (rate, vs)))).map
    (fun scens =>
      { scenarios := scens
        baseline := total_contributions initial monthly compound_per_year years
        headline := (scens.getD (scens.length / 2) (0, [])).2.getLastD 0 })

/-! Helper lemmas shared by the claim theorems. -/

/-- `mapM` over `Option` succeeds with the pointwise map when every element succeeds. -/
lemma mapM_option_of_forall_some {α β : Type} (f : α → Option β) (g : α → β) (l : List α)
    (h : ∀ x ∈ l, f x = some (g x)) : l.mapM f = some (l.map g) := by
  induction l with
  | nil => rfl
  | cons a l ih =>
    rw [List.mapM_cons, h a (List.mem_cons_self a l),
      ih (fun x hx => h x (List.mem_cons_of_mem a hx))]
    rfl

/-- `mapM` over `Option`: a successful run is the pointwise map of any function
that agrees with `f` on successes. -/
lemma mapM_option_eq_map_of_some {α β : Type} (f : α → Option β) (g : α → β) (l : List α)
    (ys : List β) (hg : ∀ x y, f x = some y → y = g x) (h : l.mapM f = some ys) :
    ys = l.map g := by
  induction l generalizing ys with
  | nil =>
    rw [List.mapM_nil] at h
    simpa using h.symm
  | cons a l ih =>
    rw [List.mapM_cons] at h
    cases hfa : f a with
    | none => rw [hfa] at h; simp at h
    | some b =>
      rw [hfa] at h
      cases hml : l.mapM f with
      | none => rw [hml] at h; simp at h
      | some bs =>
        rw [hml] at h
        have h2 : b :: bs = ys := Option.some.inj h
        subst h2
        rw [List.map_cons, hg a b hfa, ih bs hml]

/-- With a positive rate (and a real compounding frequency) the v3 total is
defined and equals the v4 total: both take the annuity-formula branch. -/
lemma total_v3_pos (initial monthly r : ℚ) (compound_per_year t : ℕ)
    (hr : 0 < r) (hc : compound_per_year ≠ 0) :
    total_v3 initial monthly r compound_per_year t =
      some (total_v4 initial monthly r compound_per_year t) := by
  have hcq : (0 : ℚ) < compound_per_year := by
    exact_mod_cast Nat.pos_of_ne_zero hc
  have hdiv : r / compound_per_year ≠ 0 := ne_of_gt (div_pos hr hcq)
  simp [total_v3, total_v4, contribution_val_v3, contribution_val_v4, hdiv, hr]

/-- With a positive rate the v3 value series is defined and equals the v4 series. -/
lemma values_v3_pos (initial monthly rate : ℚ) (compound_per_year years : ℕ)
    (hr : 0 < rate) (hc : compound_per_year ≠ 0) :
    values_v3 initial monthly rate compound_per_year years =
      some (values_v4 initial monthly rate compound_per_year years) := by
  apply mapM_option_of_forall_some
  intro t _
  exact total_v3_pos initial monthly (rate / 100) compound_per_year t
    (by positivity) hc

/-- When every scenario rate is positive, v3 completes and returns exactly the
v4 result. -/
lemma project_v3_pos (initial monthly : ℚ) (years : ℕ) (interest range_offset : ℚ)
    (compound_per_year : ℕ)
    (hr : ∀ rate ∈ rates interest range_offset, 0 < rate) (hc : compound_per_year ≠ 0) :
    project_v3 initial monthly years interest range_offset compound_per_year =
      some (project_v4 initial monthly years interest range_offset compound_per_year) := by
  unfold project_v3 project_v4
  rw [mapM_option_of_forall_some _
    (fun rate => (rate, values_v4 initial monthly rate compound_per_year years))]
  · rfl
  · intro rate hrate
    rw [values_v3_pos initial monthly rate compound_per_year years (hr rate hrate) hc]
    rfl

/-- A successful v3 run has the v3 scenario series over `rates`, the shared
baseline, and the middle-scenario headline. -/
lemma project_v3_some_elim (initial monthly : ℚ) (years : ℕ) (interest range_offset : ℚ)
    (compound_per_year : ℕ) (R : ProjectionResult)
    (h : project_v3 initial monthly years interest range_offset compound_per_year = some R) :
    R.scenarios = (rates interest range_offset).map
      (fun rate => (rate, (values_v3 initial monthly rate compound_per_year years).getD [])) ∧
    R.baseline = total_contributions initial monthly compound_per_year years ∧
    R.headline = (R.scenarios.getD (R.scenarios.length / 2) (0, [])).2.getLastD 0 := by
  unfold project_v3 at h
  cases hm : (rates interest range_offset).mapM
      (fun rate => (values_v3 initial monthly rate compound_per_year years).map
        (fun vs => (rate, vs))) with
  | none => rw [hm] at h; simp at h
  | some scens =>
    rw [hm] at h
    have h2 := Option.some.inj h
    have hscens : scens = (rates interest range_offset).map
        (fun rate => (rate, (values_v3 initial monthly rate compound_per_year years).getD [])) := by
      apply mapM_option_eq_map_of_some _ _ _ _ _ hm
      intro rate y hy
      cases hv : values_v3 initial monthly rate compound_per_year years with
      | none => rw [hv] at hy; simp at hy
      | some vs =>
        rw [hv] at hy
        have h3 := Option.some.inj hy
        exact h3.symm
    subst h2
    exact ⟨hscens, rfl, rfl⟩

/-- Entry `t` of a v4 scenario series, for `t` within the horizon. -/
lemma values_v4_getD (initial monthly rate : ℚ) (compound_per_year years t : ℕ)
    (ht : t ≤ years) :
    (values_v4 initial monthly rate compound_per_year years).getD t 0 =
      total_v4 initial monthly (rate / 100) compound_per_year t := by
  have htlt : t < years + 1 := Nat.lt_succ_of_le ht
  simp [values_v4, List.getD_eq_getElem?_getD, List.getElem?_map, List.getElem?_range, htlt]

/-- The last entry of a v4 scenario series is the value at `t = years`. -/
lemma values_v4_getLastD (initial monthly rate : ℚ) (compound_per_year years : ℕ) :
    (values_v4 initial monthly rate compound_per_year years).getLastD 0 =
      total_v4 initial monthly (rate / 100) compound_per_year years := by
  unfold values_v4
  rw [List.range_succ, List.map_append]
  simp

/-- The middle scenario of a v4 result is the central (or only) rate with its series. -/
lemma project_v4_middle (initial monthly : ℚ) (years : ℕ) (interest range_offset : ℚ)
    (compound_per_year : ℕ) :
    ((project_v4 initial monthly years interest range_offset compound_per_year).scenarios.getD
        ((project_v4 initial monthly years interest range_offset compound_per_year).scenarios.length / 2)
        (0, [])) =
      (interest, values_v4 initial monthly interest compound_per_year years) := by
  by_cases hv : range_offset = 0 <;> simp [project_v4, rates, hv]

/-- The v4 headline is the central-rate value at `t = years`. -/
lemma project_v4_headline (initial monthly : ℚ) (years : ℕ) (interest range_offset : ℚ)
    (compound_per_year : ℕ) :
    (project_v4 initial monthly years interest range_offset compound_per_year).headline =
      total_v4 initial monthly (interest / 100) compound_per_year years := by
  have hmid := project_v4_middle initial monthly years interest range_offset compound_per_year
  have hdef : (project_v4 initial monthly years interest range_offset compound_per_year).headline =
      ((project_v4 initial monthly years interest range_offset compound_per_year).scenarios.getD
        ((project_v4 initial monthly years interest range_offset compound_per_year).scenarios.length / 2)
        (0, [])).2.getLastD 0 := rfl
  rw [hdef, hmid]
  exact values_v4_getLastD initial monthly interest compound_per_year years

/-- The middle scenario of a successful v3 run is the central (or only) rate
with its v3 series. -/
lemma project_v3_middle (initial monthly : ℚ) (years : ℕ) (interest range_offset : ℚ)
    (compound_per_year : ℕ) (R : ProjectionResult)
    (h : project_v3 initial monthly years interest range_offset compound_per_year = some R) :
    R.scenarios.getD (R.scenarios.length / 2) (0, []) =
      (interest, (values_v3 initial monthly interest compound_per_year years).getD []) := by
  have hs := (project_v3_some_elim initial monthly years interest range_offset
    compound_per_year R h).1
  rw [hs]
  by_cases hv : range_offset = 0 <;> simp [rates, hv]

/-- C1 (corrected): the two calculation cores agree on every input whose
scenario rates are all positive; they disagree at zero and negative rates
(see `c1_counterexample`). -/
theorem c1_cores_equivalent_on_positive_rates (initial monthly : ℚ) (years : ℕ)
    (interest range_offset : ℚ) (compound_per_year : ℕ)
    (hr : ∀ rate ∈ rates interest range_offset, 0 < rate) (hc : compound_per_year ≠ 0) :
    project_v3 initial monthly years interest range_offset compound_per_year =
      some (project_v4 initial monthly years interest range_offset compound_per_year) :=
  project_v3_pos initial monthly years interest range_offset compound_per_year hr hc

/-- C1 witness at a concrete all-positive-rate input. -/
theorem c1_witness :
    project_v3 1000 100 1 10 2 12 = some (project_v4 1000 100 1 10 2 12) :=
  c1_cores_equivalent_on_positive_rates 1000 100 1 10 2 12
    (by intro rate h; norm_num [rates] at h; rcases h with h | h | h <;> norm_num [h])
    (by norm_num)

/-- C1 counterexample: at `initial = 0, monthly = 100, years = 2, interest = 1,
range_offset = 2, compound_per_year = 1` the below-central rate is `-1`; v3
computes the annuity formula (series entry `199` at `t = 2`) while v4 takes its
linear zero-rate branch (entry `200`), so the scenario series differ. -/
theorem c1_counterexample :
    (project_v3 0 100 2 1 2 1).map ProjectionResult.scenarios ≠
      some ((project_v4 0 100 2 1 2 1).scenarios) := by
  norm_num [project_v3, project_v4, rates, values_v3, values_v4, total_v3, total_v4,
    contribution_val_v3, contribution_val_v4, future_val, growth, total_contributions,
    List.range_succ, List.mapM.loop]

/-- C2 (corrected): in v4 the zero-rate case is handled by the guarded linear
branch — with `interest = 0` and `range_offset = 0` the only scenario's value at
year `t` is `initial + monthly * t * compound_per_year`; v3 instead divides by
zero on such inputs (see `c2_counterexample`). -/
theorem c2_zero_rate_linear_v4 (initial monthly : ℚ) (years compound_per_year t : ℕ)
    (ht : t ≤ years) :
    ((project_v4 initial monthly years 0 0 compound_per_year).scenarios.getD 0 (0, [])).2.getD t 0 =
      initial + monthly * ↑t * ↑compound_per_year := by
  have hscen : (project_v4 initial monthly years 0 0 compound_per_year).scenarios =
      [(0, values_v4 initial monthly 0 compound_per_year years)] := by
    simp [project_v4, rates]
  rw [hscen]
  simp only [List.getD_cons_zero]
  rw [values_v4_getD initial monthly 0 compound_per_year years t ht]
  norm_num [total_v4, contribution_val_v4, future_val, growth]

/-- C2 witness: `initial = 1000, monthly = 100, t = 1, compound_per_year = 12`
gives `1000 + 100 * 1 * 12 = 2200`. -/
theorem c2_witness :
    ((project_v4 1000 100 2 0 0 12).scenarios.getD 0 (0, [])).2.getD 1 0 = 2200 := by
  rw [c2_zero_rate_linear_v4 1000 100 2 12 1 (by norm_num)]
  norm_num

/-- C2 counterexample: on the zero-rate input `initial = 1000, monthly = 100,
years = 1, interest = 0, range_offset = 0, compound_per_year = 12` the v3 core
crashes with `ZeroDivisionError` — there is no scenario value at all, so the
zero-rate case is not "handled by the degenerate annuity limit" in v3. -/
theorem c2_counterexample :
    project_v3 1000 100 1 0 0 12 = none := by
  norm_num [project_v3, rates, values_v3, total_v3, contribution_val_v3, growth,
    List.range_succ, List.mapM.loop]

/-- C3 (corrected): at `initial = 1000, monthly = 100, years = 10, interest = 7,
range_offset = 0, compound_per_year = 12` the single scenario's value is
`1000` at year 0 and `19318.14` (to within `1e-2`) at year 10, and v3 agrees
with v4 on this input. -/
theorem c3_concrete_single_scenario :
    ((project_v4 1000 100 10 7 0 12).scenarios.getD 0 (0, [])).2.getD 0 0 = 1000 ∧
    |((project_v4 1000 100 10 7 0 12).scenarios.getD 0 (0, [])).2.getLastD 0 - 19318.14| <
      1 / 100 ∧
    project_v3 1000 100 10 7 0 12 = some (project_v4 1000 100 10 7 0 12) := by
  have hscen : (project_v4 1000 100 10 7 0 12).scenarios =
      [(7, values_v4 1000 100 7 12 10)] := by
    simp [project_v4, rates]
  refine ⟨?_, ?_, ?_⟩
  · rw [hscen]
    simp only [List.getD_cons_zero]
    rw [values_v4_getD 1000 100 7 12 10 0 (by norm_num)]
    norm_num [total_v4, contribution_val_v4, future_val, growth]
  · rw [hscen]
    simp only [List.getD_cons_zero]
    rw [values_v4_getLastD 1000 100 7 12 10]
    rw [abs_sub_lt_iff]
    norm_num [total_v4, contribution_val_v4, future_val, growth]
  · exact project_v3_pos 1000 100 10 7 0 12
      (by intro rate h; norm_num [rates] at h; norm_num [h]) (by norm_num)

/-- C3 counterexample: the spec's year-10 figure `18221.06` is wrong — the
computed year-10 value (`≈ 19318.14`) is not within `1e-2` of it. -/
theorem c3_counterexample :
    ¬ |((project_v4 1000 100 10 7 0 12).scenarios.getD 0 (0, [])).2.getLastD 0 - 18221.06| <
        1 / 100 := by
  have hscen : (project_v4 1000 100 10 7 0 12).scenarios =
      [(7, values_v4 1000 100 7 12 10)] := by
    simp [project_v4, rates]
  rw [hscen]
  simp only [List.getD_cons_zero]
  rw [values_v4_getLastD 1000 100 7 12 10, abs_sub_lt_iff]
  norm_num [total_v4, contribution_val_v4, future_val, growth]

/-- C4 (confirmed): both cores build their scenarios over the `rates` list,
which has exactly one element (`interest`) when `range_offset = 0` and exactly
three elements `interest - range_offset, interest, interest + range_offset`,
in ascending below-central-above order, when `range_offset > 0`. -/
theorem c4_scenario_count_and_order (initial monthly : ℚ) (years : ℕ)
    (interest range_offset : ℚ) (compound_per_year : ℕ) :
    ((project_v4 initial monthly years interest range_offset compound_per_year).scenarios.map
        Prod.fst = rates interest range_offset) ∧
    (∀ R, project_v3 initial monthly years interest range_offset compound_per_year = some R →
      R.scenarios.map Prod.fst = rates interest range_offset) ∧
    (range_offset = 0 →
      rates interest range_offset = [interest] ∧
      (project_v4 initial monthly years interest range_offset compound_per_year).scenarios.length
        = 1) ∧
    (0 < range_offset →
      rates interest range_offset =
        [interest - range_offset, interest, interest + range_offset] ∧
      (project_v4 initial monthly years interest range_offset compound_per_year).scenarios.length
        = 3 ∧
      interest - range_offset < interest ∧ interest < interest + range_offset) := by
  refine ⟨?_, ?_, ?_, ?_⟩
  · simp [project_v4, Function.comp_def]
  · intro R hR
    rw [(project_v3_some_elim initial monthly years interest range_offset compound_per_year
      R hR).1]
    simp [Function.comp_def]
  · intro h0
    simp [project_v4, rates, h0]
  · intro hv
    have hne : range_offset ≠ 0 := ne_of_gt hv
    refine ⟨by simp [rates, hne], by simp [project_v4, rates, hne], by linarith, by linarith⟩

/-- C4 witness at concrete inputs for both branches. -/
theorem c4_witness :
    rates 10 2 = [8, 10, 12] ∧ (project_v4 5000 0 1 10 2 1).scenarios.length = 3 ∧
    rates 7 0 = [7] ∧ (project_v4 1000 100 1 7 0 12).scenarios.length = 1 := by
  have h3 := (c4_scenario_count_and_order 5000 0 1 10 2 1).2.2.2 (by norm_num)
  have h1 := (c4_scenario_count_and_order 1000 100 1 7 0 12).2.2.1 rfl
  refine ⟨?_, h3.2.1, h1.1, h1.2⟩
  rw [h3.1]
  norm_num

/-- Monotonicity of the v4 value in `t`, for non-negative initial investment,
contribution and rate. -/
lemma total_v4_mono (initial monthly r : ℚ) (compound_per_year : ℕ)
    (hinit : 0 ≤ initial) (hm : 0 ≤ monthly) (hr : 0 ≤ r) (hc : compound_per_year ≠ 0)
    {a b : ℕ} (hab : a ≤ b) :
    total_v4 initial monthly r compound_per_year a ≤
      total_v4 initial monthly r compound_per_year b := by
  have hcq : (0 : ℚ) < compound_per_year := by exact_mod_cast Nat.pos_of_ne_zero hc
  have habq : (a : ℚ) ≤ b := by exact_mod_cast hab
  rcases eq_or_lt_of_le hr with h0 | hpos
  · have h0' : r = 0 := h0.symm
    subst h0'
    simp only [total_v4, contribution_val_v4, future_val, growth, lt_self_iff_false, if_false,
      zero_div, add_zero, one_pow, mul_one]
    have := mul_le_mul_of_nonneg_right (mul_le_mul_of_nonneg_left habq hm) (le_of_lt hcq)
    linarith
  · have hi : 0 < r / compound_per_year := div_pos hpos hcq
    have hx : (1 : ℚ) ≤ 1 + r / compound_per_year := by linarith
    have hg : growth r compound_per_year a ≤ growth r compound_per_year b := by
      unfold growth
      exact pow_le_pow_right₀ hx (Nat.mul_le_mul le_rfl hab)
    have h1 : initial * growth r compound_per_year a ≤
        initial * growth r compound_per_year b := mul_le_mul_of_nonneg_left hg hinit
    have h2 : (growth r compound_per_year a - 1) / (r / compound_per_year) ≤
        (growth r compound_per_year b - 1) / (r / compound_per_year) :=
      (div_le_div_iff_of_pos_right hi).mpr (by linarith)
    have h3 := mul_le_mul_of_nonneg_left h2 hm
    unfold total_v4 future_val contribution_val_v4
    rw [if_pos hpos, if_pos hpos]
    linarith

/-- A v4 scenario series is sorted (non-decreasing) under the C5 hypotheses. -/
lemma values_v4_sorted (initial monthly rate : ℚ) (compound_per_year years : ℕ)
    (hinit : 0 ≤ initial) (hm : 0 ≤ monthly) (hrate : 0 ≤ rate) (hc : compound_per_year ≠ 0) :
    List.Sorted (fun a b : ℚ => a ≤ b)
      (values_v4 initial monthly rate compound_per_year years) := by
  unfold values_v4 List.Sorted
  rw [List.pairwise_map]
  refine (List.pairwise_lt_range (years + 1)).imp ?_
  intro a b hab
  exact total_v4_mono initial monthly (rate / 100) compound_per_year hinit hm
    (by positivity) hc (le_of_lt hab)

/-- C5 (corrected): when every scenario rate is non-negative (which requires
`range_offset ≤ interest`), each v4 scenario series is non-decreasing; with
all rates positive the same holds for every successful v3 run.  The original
claim, which allowed a negative below-central rate, fails
(see `c5_counterexample`). -/
theorem c5_monotone_for_nonneg_rates (initial monthly : ℚ) (years : ℕ)
    (interest range_offset : ℚ) (compound_per_year : ℕ)
    (hinit : 0 ≤ initial) (hm : 0 ≤ monthly) (hc : compound_per_year ≠ 0)
    (hr : ∀ rate ∈ rates interest range_offset, 0 ≤ rate) :
    (∀ p ∈ (project_v4 initial monthly years interest range_offset compound_per_year).scenarios,
      List.Sorted (fun a b : ℚ => a ≤ b) p.2) ∧
    ((∀ rate ∈ rates interest range_offset, 0 < rate) →
      ∀ R, project_v3 initial monthly years interest range_offset compound_per_year = some R →
        ∀ p ∈ R.scenarios, List.Sorted (fun a b : ℚ => a ≤ b) p.2) := by
  have main : ∀ p ∈ (project_v4 initial monthly years interest range_offset
      compound_per_year).scenarios, List.Sorted (fun a b : ℚ => a ≤ b) p.2 := by
    intro p hp
    simp only [project_v4, List.mem_map] at hp
    obtain ⟨rate, hrate, hpe⟩ := hp
    rw [← hpe]
    exact values_v4_sorted initial monthly rate compound_per_year years hinit hm
      (hr rate hrate) hc
  refine ⟨main, ?_⟩
  intro hpos R hR
  rw [project_v3_pos initial monthly years interest range_offset compound_per_year hpos hc]
    at hR
  have h2 := Option.some.inj hR
  rw [← h2]
  exact main

/-- C5 witness: the single 7% scenario of a concrete input is non-decreasing. -/
theorem c5_witness :
    List.Sorted (fun a b : ℚ => a ≤ b) ((7 : ℚ), values_v4 1000 100 7 12 2).2 := by
  have h := (c5_monotone_for_nonneg_rates 1000 100 2 7 0 12 (by norm_num) (by norm_num)
    (by norm_num) (by intro rate hrate; norm_num [rates] at hrate; norm_num [hrate])).1
  exact h (7, values_v4 1000 100 7 12 2) (by simp [project_v4, rates])

/-- C5 counterexample: with `initial = 5000, monthly = 0, years = 1,
interest = 1, range_offset = 2, compound_per_year = 1` the below-central
scenario (rate `-1`) has series `[5000, 4950]` in both cores — strictly
decreasing, refuting monotonicity for `rate_variance_percent` unrestricted. -/
theorem c5_counterexample :
    ((project_v4 5000 0 1 1 2 1).scenarios.getD 0 (0, [])).2 = [5000, 4950] ∧
    (project_v3 5000 0 1 1 2 1).map (fun R => (R.scenarios.getD 0 (0, [])).2) =
      some [5000, 4950] ∧
    ¬ (5000 : ℚ) ≤ 4950 := by
  norm_num [project_v3, project_v4, rates, values_v3, values_v4, total_v3, total_v4,
    contribution_val_v3, contribution_val_v4, future_val, growth, total_contributions,
    List.range_succ, List.mapM.loop]

/-- C6 (confirmed): the `Total Contributions` baseline entry at year `t` is
`initial + monthly * t * compound_per_year`, and the baseline is identical
across inputs that differ only in `interest` and/or `range_offset`; a
successful v3 run produces the same baseline. -/
theorem c6_baseline_linear_and_rate_independent (initial monthly : ℚ) (years : ℕ)
    (interest range_offset interest' range_offset' : ℚ) (compound_per_year : ℕ)
    (t : ℕ) (ht : t ≤ years) :
    (project_v4 initial monthly years interest range_offset compound_per_year).baseline.getD t 0
      = initial + monthly * ↑t * ↑compound_per_year ∧
    (project_v4 initial monthly years interest range_offset compound_per_year).baseline =
      (project_v4 initial monthly years interest' range_offset' compound_per_year).baseline ∧
    (∀ R, project_v3 initial monthly years interest range_offset compound_per_year = some R →
      R.baseline =
        (project_v4 initial monthly years interest range_offset compound_per_year).baseline) := by
  refine ⟨?_, rfl, ?_⟩
  · have htlt : t < years + 1 := Nat.lt_succ_of_le ht
    show (total_contributions initial monthly compound_per_year years).getD t 0 = _
    simp [total_contributions, List.getD_eq_getElem?_getD, List.getElem?_map,
      List.getElem?_range, htlt]
  · intro R hR
    exact (project_v3_some_elim initial monthly years interest range_offset compound_per_year
      R hR).2.1

/-- C6 witness: concrete baseline entry and rate-independence instance. -/
theorem c6_witness :
    (project_v4 1000 100 2 7 0 12).baseline.getD 1 0 = 2200 ∧
    (project_v4 1000 100 2 7 0 12).baseline = (project_v4 1000 100 2 99 3 12).baseline := by
  have h := c6_baseline_linear_and_rate_independent 1000 100 2 7 0 99 3 12 1 (by norm_num)
  refine ⟨?_, h.2.1⟩
  rw [h.1]
  norm_num

/-- C7 (confirmed): the headline is the last entry of the middle scenario's
series — the central (or only) rate's value at `year = years` — in v4, and in
every successful v3 run. -/
theorem c7_headline_is_middle_scenario_final (initial monthly : ℚ) (years : ℕ)
    (interest range_offset : ℚ) (compound_per_year : ℕ) :
    (((project_v4 initial monthly years interest range_offset compound_per_year).scenarios.getD
        ((project_v4 initial monthly years interest range_offset
          compound_per_year).scenarios.length / 2) (0, [])).1 = interest) ∧
    ((project_v4 initial monthly years interest range_offset compound_per_year).headline =
      ((project_v4 initial monthly years interest range_offset compound_per_year).scenarios.getD
        ((project_v4 initial monthly years interest range_offset
          compound_per_year).scenarios.length / 2) (0, [])).2.getLastD 0) ∧
    ((project_v4 initial monthly years interest range_offset compound_per_year).headline =
      total_v4 initial monthly (interest / 100) compound_per_year years) ∧
    (∀ R, project_v3 initial monthly years interest range_offset compound_per_year = some R →
      R.headline = (R.scenarios.getD (R.scenarios.length / 2) (0, [])).2.getLastD 0 ∧
      (R.scenarios.getD (R.scenarios.length / 2) (0, [])).1 = interest) := by
  refine ⟨?_, rfl, ?_, ?_⟩
  · rw [project_v4_middle]
  · exact project_v4_headline initial monthly years interest range_offset compound_per_year
  · intro R hR
    refine ⟨(project_v3_some_elim initial monthly years interest range_offset
      compound_per_year R hR).2.2, ?_⟩
    rw [project_v3_middle initial monthly years interest range_offset compound_per_year R hR]

/-- C7 witness at a concrete input, for both cores. -/
theorem c7_witness :
    (project_v4 1000 100 1 7 0 12).headline = total_v4 1000 100 (7 / 100) 12 1 ∧
    (project_v4 1000 100 1 7 0 12).headline =
      ((project_v4 1000 100 1 7 0 12).scenarios.getD 0 (0, [])).2.getLastD 0 := by
  have h := c7_headline_is_middle_scenario_final 1000 100 1 7 0 12
  have h4 := h.2.2.2 (project_v4 1000 100 1 7 0 12)
    (project_v3_pos 1000 100 1 7 0 12
      (by intro rate hrate; norm_num [rates] at hrate; norm_num [hrate]) (by norm_num))
  refine ⟨h.2.2.1, ?_⟩
  have hlen : (project_v4 1000 100 1 7 0 12).scenarios.length = 1 := by
    simp [project_v4, rates]
  rw [h4.1, hlen]

/-- C8 (confirmed): when `range_offset > interest ≥ 0` the below-central rate
`interest - range_offset` is negative, is not clamped to zero, and the first
scenario is computed at exactly that rate; v3 even evaluates the literal
annuity expression at the negative rate. -/
theorem c8_negative_rate_not_clamped (initial monthly : ℚ) (years : ℕ)
    (interest range_offset : ℚ) (compound_per_year : ℕ)
    (hi : 0 ≤ interest) (hv : interest < range_offset) (hc : compound_per_year ≠ 0) :
    rates interest range_offset =
      [interest - range_offset, interest, interest + range_offset] ∧
    interest - range_offset < 0 ∧
    (project_v4 initial monthly years interest range_offset compound_per_year).scenarios.getD 0
        (0, []) =
      (interest - range_offset,
        values_v4 initial monthly (interest - range_offset) compound_per_year years) ∧
    values_v3 initial monthly (interest - range_offset) compound_per_year years =
      some ((List.range (years + 1)).map (fun t =>
        future_val initial ((interest - range_offset) / 100) compound_per_year t +
          monthly * ((growth ((interest - range_offset) / 100) compound_per_year t - 1) /
            ((interest - range_offset) / 100 / ↑compound_per_year)))) := by
  have hne : range_offset ≠ 0 := by intro h; rw [h] at hv; linarith
  have hneg : interest - range_offset < 0 := by linarith
  have hcq : (0 : ℚ) < compound_per_year := by exact_mod_cast Nat.pos_of_ne_zero hc
  have hdiv : (interest - range_offset) / 100 / compound_per_year ≠ 0 := by
    apply ne_of_lt
    apply div_neg_of_neg_of_pos _ hcq
    exact div_neg_of_neg_of_pos hneg (by norm_num)
  refine ⟨by simp [rates, hne], hneg, by simp [project_v4, rates, hne], ?_⟩
  apply mapM_option_of_forall_some
  intro t _
  simp [total_v3, contribution_val_v3, hdiv]

/-- C8 witness at `interest = 1, range_offset = 2`. -/
theorem c8_witness :
    rates 1 2 = [1 - 2, 1, 1 + 2] ∧ (1 : ℚ) - 2 < 0 ∧
    (project_v4 5000 0 1 1 2 1).scenarios.getD 0 (0, []) =
      (1 - 2, values_v4 5000 0 (1 - 2) 1 1) := by
  have h := c8_negative_rate_not_clamped 5000 0 1 1 2 1 (by norm_num) (by norm_num)
    (by norm_num)
  exact ⟨h.1, h.2.1, h.2.2.1⟩

/-- C10 (corrected): the middle scenario and the headline of v4 are invariant
under changes of `range_offset` alone, and likewise for v3 whenever both runs
complete; but a v3 run can crash for one variance and complete for another
(see `c10_counterexample`), so for v3 the claim only holds conditionally. -/
theorem c10_headline_variance_independent (initial monthly : ℚ) (years : ℕ)
    (interest range_offset range_offset' : ℚ) (compound_per_year : ℕ) :
    ((project_v4 initial monthly years interest range_offset compound_per_year).scenarios.getD
        ((project_v4 initial monthly years interest range_offset
          compound_per_year).scenarios.length / 2) (0, []) =
      (project_v4 initial monthly years interest range_offset' compound_per_year).scenarios.getD
        ((project_v4 initial monthly years interest range_offset'
          compound_per_year).scenarios.length / 2) (0, [])) ∧
    ((project_v4 initial monthly years interest range_offset compound_per_year).headline =
      (project_v4 initial monthly years interest range_offset' compound_per_year).headline) ∧
    (∀ R R', project_v3 initial monthly years interest range_offset compound_per_year = some R →
      project_v3 initial monthly years interest range_offset' compound_per_year = some R' →
      R.scenarios.getD (R.scenarios.length / 2) (0, []) =
        R'.scenarios.getD (R'.scenarios.length / 2) (0, []) ∧
      R.headline = R'.headline) := by
  refine ⟨?_, ?_, ?_⟩
  · rw [project_v4_middle, project_v4_middle]
  · rw [project_v4_headline, project_v4_headline]
  · intro R R' hR hR'
    have hm := project_v3_middle initial monthly years interest range_offset
      compound_per_year R hR
    have hm' := project_v3_middle initial monthly years interest range_offset'
      compound_per_year R' hR'
    refine ⟨by rw [hm, hm'], ?_⟩
    rw [(project_v3_some_elim initial monthly years interest range_offset compound_per_year
      R hR).2.2, (project_v3_some_elim initial monthly years interest range_offset'
      compound_per_year R' hR').2.2, hm, hm']

/-- C10 witness: variance `0` versus `2` around a 7% central rate, both cores. -/
theorem c10_witness :
    (project_v4 1000 100 1 7 0 12).headline = (project_v4 1000 100 1 7 2 12).headline ∧
    (project_v4 1000 100 1 7 0 12).headline = (project_v4 1000 100 1 7 2 12).headline := by
  have h := c10_headline_variance_independent 1000 100 1 7 0 2 12
  have h3 := h.2.2 (project_v4 1000 100 1 7 0 12) (project_v4 1000 100 1 7 2 12)
    (project_v3_pos 1000 100 1 7 0 12
      (by intro rate hrate; norm_num [rates] at hrate; norm_num [hrate]) (by norm_num))
    (project_v3_pos 1000 100 1 7 2 12
      (by intro rate hrate; norm_num [rates] at hrate;
          rcases hrate with h | h | h <;> norm_num [h]) (by norm_num))
  exact ⟨h.2.1, h3.2⟩

/-- C10 counterexample: two inputs identical except for the variance
(`0` versus `5` around a 5% central rate): the first v3 run returns a headline,
the second crashes (its below-central rate is `0`), so the v3 headline is not
independent of `rate_variance_percent`. -/
theorem c10_counterexample :
    (project_v3 1000 100 1 5 0 1).map ProjectionResult.headline ≠
      (project_v3 1000 100 1 5 5 1).map ProjectionResult.headline := by
  have h1 : (project_v3 1000 100 1 5 0 1).map ProjectionResult.headline = some 1150 := by
    norm_num [project_v3, rates, values_v3, total_v3, contribution_val_v3, future_val,
      growth, total_contributions, List.range_succ, List.mapM.loop]
  have h2 : (project_v3 1000 100 1 5 5 1).map ProjectionResult.headline = none := by
    norm_num [project_v3, rates, values_v3, total_v3, contribution_val_v3, future_val,
      growth, total_contributions, List.range_succ, List.mapM.loop]
  rw [h1, h2]
  exact fun h => Option.noConfusion h

/-- C9 (confirmed): at `initial = 5000, monthly = 0, years = 1, interest = 10,
range_offset = 2, compound_per_year = 1` there are exactly three scenarios with
rates `8, 10, 12` and year-1 values `5400, 5500, 5600`, and v3 agrees with v4. -/
theorem c9_concrete_variance_scenarios :
    (project_v4 5000 0 1 10 2 1).scenarios.map Prod.fst = [8, 10, 12] ∧
    (project_v4 5000 0 1 10 2 1).scenarios.map (fun p => p.2.getLastD 0) =
      [5400, 5500, 5600] ∧
    (project_v4 5000 0 1 10 2 1).scenarios.length = 3 ∧
    project_v3 5000 0 1 10 2 1 = some (project_v4 5000 0 1 10 2 1) := by
  norm_num [project_v4, project_v3, rates, values_v4, values_v3, total_v4, total_v3,
    contribution_val_v4, contribution_val_v3, future_val, growth, List.range_succ,
    total_contributions, List.mapM.loop]

end WealthCalc
